import Mathlib

/-!
Verification development for the `youtube-dl-rs` crate (`src/lib.rs`,
`src/model.rs`): a shallow embedding of its JSON data model, the
discriminating deserializer, and the process-execution protocol,
together with theorems settling the specification claims.
-/

set_option maxHeartbeats 1600000
set_option maxRecDepth 4000

/-- A JSON value, mirroring `serde_json::Value`.  Numbers keep their literal
token (no claim in this development compares numeric magnitudes, and the
crate stores loosely-typed numeric fields as raw `Value`s).  Objects are
association lists built with last-write-wins insertion, matching the
`BTreeMap` backing of `serde_json::Map`. -/
inductive Json where
  | null : Json
  | bool (b : Bool) : Json
  | num (lit : String) : Json
  | str (s : String) : Json
  | arr (elems : List Json) : Json
  | obj (fields : List (String × Json)) : Json
  deriving Repr

/-- Key lookup in a JSON object's field list (first match; the builder
`insertKey` keeps keys unique, matching map semantics). -/
def lookupKey : List (String × Json) → String → Option Json
  | [], _ => none
  | (k, v) :: rest, key => if k == key then some v else lookupKey rest key

/-- Map-style insertion: replaces the value of an existing key (last write
wins over duplicate JSON keys, as with `serde_json::Map::insert`). -/
def insertKey : List (String × Json) → String → Json → List (String × Json)
  | [], key, v => [(key, v)]
  | (k, w) :: rest, key, v =>
    if k == key then (k, v) :: rest else (k, w) :: insertKey rest key v

/-- `serde_json`'s `Value` indexing (`value["_type"]`): returns the member
for object inputs with the key present, `Null` otherwise. -/
def Json.index (v : Json) (key : String) : Json :=
  match v with
  | .obj fields => (lookupKey fields key).getD .null
  | _ => .null

/-- The discriminant test from `process_json_output` (lib.rs:679):
`value["_type"] == json!("playlist")`. -/
def isPlaylistValue (v : Json) : Bool :=
  match v.index "_type" with
  | .str s => s == "playlist"
  | _ => false

/-- Strict UTF-8 decoding of a byte sequence, as `String::from_utf8`:
rejects overlong forms, surrogates and out-of-range code points; `none`
models `Err(FromUtf8Error)`. -/
def utf8DecodeChars : List Nat → Option (List Char)
  | [] => some []
  | b0 :: rest =>
    if b0 < 0x80 then
      (utf8DecodeChars rest).map (fun cs => Char.ofNat b0 :: cs)
    else if 0xC2 ≤ b0 ∧ b0 ≤ 0xDF then
      match rest with
      | b1 :: rest1 =>
        if 0x80 ≤ b1 ∧ b1 ≤ 0xBF then
          (utf8DecodeChars rest1).map
            (fun cs => Char.ofNat ((b0 - 0xC0) * 0x40 + (b1 - 0x80)) :: cs)
        else none
      | _ => none
    else if 0xE0 ≤ b0 ∧ b0 ≤ 0xEF then
      match rest with
      | b1 :: b2 :: rest2 =>
        let lo1 : Nat := if b0 = 0xE0 then 0xA0 else 0x80
        let hi1 : Nat := if b0 = 0xED then 0x9F else 0xBF
        if (lo1 ≤ b1 ∧ b1 ≤ hi1) ∧ (0x80 ≤ b2 ∧ b2 ≤ 0xBF) then
          (utf8DecodeChars rest2).map
            (fun cs =>
              Char.ofNat ((b0 - 0xE0) * 0x1000 + (b1 - 0x80) * 0x40 + (b2 - 0x80)) :: cs)
        else none
      | _ => none
    else if 0xF0 ≤ b0 ∧ b0 ≤ 0xF4 then
      match rest with
      | b1 :: b2 :: b3 :: rest3 =>
        let lo1 : Nat := if b0 = 0xF0 then 0x90 else 0x80
        let hi1 : Nat := if b0 = 0xF4 then 0x8F else 0xBF
        if (lo1 ≤ b1 ∧ b1 ≤ hi1) ∧ (0x80 ≤ b2 ∧ b2 ≤ 0xBF) ∧ (0x80 ≤ b3 ∧ b3 ≤ 0xBF) then
          (utf8DecodeChars rest3).map
            (fun cs =>
              Char.ofNat ((b0 - 0xF0) * 0x40000 + (b1 - 0x80) * 0x1000 +
                (b2 - 0x80) * 0x40 + (b3 - 0x80)) :: cs)
        else none
      | _ => none
    else none

/-- `String::from_utf8` on a byte vector. -/
def rustFromUtf8 (bytes : List Nat) : Option String :=
  (utf8DecodeChars bytes).map (fun cs => String.mk cs)

theorem exc_bind_ok {ε α β : Type} (a : α) (f : α → Except ε β) :
    (Except.ok a >>= f) = f a := rfl

theorem exc_bind_err {ε α β : Type} (e : ε) (f : α → Except ε β) :
    ((Except.error e : Except ε α) >>= f) = Except.error e := rfl

theorem exc_bind_eq_ok {ε α β : Type} {x : Except ε α} {f : α → Except ε β} {b : β} :
    (x >>= f) = .ok b ↔ ∃ a, x = .ok a ∧ f a = .ok b := by
  cases x with
  | ok a => simp [exc_bind_ok]
  | error e => simp [exc_bind_err]

/-- Error category of a JSON deserialization failure, mirroring
`serde_json::error::Category` (`Syntax`, `Eof`, `Data`; the `Io` category
cannot arise from an in-memory buffer). -/
inductive JsonErrKind where
  | synErr : JsonErrKind
  | eofErr : JsonErrKind
  | dataErr : JsonErrKind
  deriving Repr, DecidableEq

/-- A JSON deserialization failure: category plus message, mirroring
`serde_json::Error`. -/
structure JsonErr where
  kind : JsonErrKind
  msg : String
  deriving Repr

/-- Whitespace skipping of the JSON grammar. -/
def skipWs : List Char → List Char
  | [] => []
  | c :: rest =>
    if c = ' ' ∨ c = '\t' ∨ c = '\n' ∨ c = '\r' then skipWs rest else c :: rest

/-- Hex digit value. -/
def hexVal (c : Char) : Option Nat :=
  if '0' ≤ c ∧ c ≤ '9' then some (c.toNat - '0'.toNat)
  else if 'a' ≤ c ∧ c ≤ 'f' then some (c.toNat - 'a'.toNat + 10)
  else if 'A' ≤ c ∧ c ≤ 'F' then some (c.toNat - 'A'.toNat + 10)
  else none

/-- Four-hex-digit escape value (`\uXXXX`). -/
def hex4 : List Char → Option (Nat × List Char)
  | c1 :: c2 :: c3 :: c4 :: rest =>
    match hexVal c1, hexVal c2, hexVal c3, hexVal c4 with
    | some h1, some h2, some h3, some h4 =>
      some (h1 * 0x1000 + h2 * 0x100 + h3 * 0x10 + h4, rest)
    | _, _, _, _ => none
  | _ => none

/-- Body of a JSON string literal after the opening quote, with the escape
set of the JSON grammar (including surrogate pairs), as `serde_json` reads
it. -/
def parseStringBody : List Char → List Char → Except JsonErr (String × List Char)
  | [], _ => .error ⟨.eofErr, "EOF while parsing a string"⟩
  | '"' :: rest, acc => .ok (String.mk acc.reverse, rest)
  | '\\' :: rest, acc =>
    match rest with
    | [] => .error ⟨.eofErr, "EOF while parsing a string"⟩
    | e :: rest2 =>
      if e = '"' then parseStringBody rest2 ('"' :: acc)
      else if e = '\\' then parseStringBody rest2 ('\\' :: acc)
      else if e = '/' then parseStringBody rest2 ('/' :: acc)
      else if e = 'b' then parseStringBody rest2 ('\x08' :: acc)
      else if e = 'f' then parseStringBody rest2 ('\x0c' :: acc)
      else if e = 'n' then parseStringBody rest2 ('\n' :: acc)
      else if e = 'r' then parseStringBody rest2 ('\r' :: acc)
      else if e = 't' then parseStringBody rest2 ('\t' :: acc)
      else if e = 'u' then
        match rest2 with
        | c1 :: c2 :: c3 :: c4 :: rest3 =>
          match hexVal c1, hexVal c2, hexVal c3, hexVal c4 with
          | some h1, some h2, some h3, some h4 =>
            let u := h1 * 0x1000 + h2 * 0x100 + h3 * 0x10 + h4
            if u < 0xD800 ∨ 0xDFFF < u then
              parseStringBody rest3 (Char.ofNat u :: acc)
            else if 0xDC00 ≤ u then
              .error ⟨.synErr, "lone trailing surrogate in hex escape"⟩
            else
              match rest3 with
              | '\\' :: 'u' :: d1 :: d2 :: d3 :: d4 :: rest5 =>
                match hexVal d1, hexVal d2, hexVal d3, hexVal d4 with
                | some g1, some g2, some g3, some g4 =>
                  let u2 := g1 * 0x1000 + g2 * 0x100 + g3 * 0x10 + g4
                  if 0xDC00 ≤ u2 ∧ u2 ≤ 0xDFFF then
                    parseStringBody rest5
                      (Char.ofNat (0x10000 + (u - 0xD800) * 0x400 + (u2 - 0xDC00)) :: acc)
                  else .error ⟨.synErr, "lone leading surrogate in hex escape"⟩
                | _, _, _, _ => .error ⟨.synErr, "invalid escape"⟩
              | _ => .error ⟨.synErr, "unexpected end of hex escape"⟩
          | _, _, _, _ => .error ⟨.synErr, "invalid escape"⟩
        | _ => .error ⟨.eofErr, "EOF while parsing a string"⟩
      else .error ⟨.synErr, "invalid escape"⟩
  | c :: rest, acc =>
    if c.toNat < 0x20 then .error ⟨.synErr, "control character in string"⟩
    else parseStringBody rest (c :: acc)

/-- Longest digit span. -/
def takeDigits : List Char → List Char × List Char
  | [] => ([], [])
  | c :: rest =>
    if '0' ≤ c ∧ c ≤ '9' then
      let (ds, rest1) := takeDigits rest
      (c :: ds, rest1)
    else ([], c :: rest)

/-- A JSON numeric literal per the JSON grammar (optional minus, integer
part without redundant leading zero, optional fraction, optional
exponent); the literal token is retained. -/
def parseNumber (cs : List Char) : Except JsonErr (String × List Char) := do
  let (signChars, afterSign) :=
    match cs with
    | '-' :: rest => (['-'], rest)
    | _ => ([], cs)
  match afterSign with
  | [] => .error ⟨.eofErr, "EOF while parsing a value"⟩
  | c :: _ =>
    if ¬('0' ≤ c ∧ c ≤ '9') then .error ⟨.synErr, "invalid number"⟩
    else do
      let (intDigits, afterInt) :=
        if c = '0' then ([c], afterSign.tail) else takeDigits afterSign
      let nextIsDigit : Bool :=
        match afterInt with
        | d :: _ => decide ('0' ≤ d ∧ d ≤ '9')
        | [] => false
      if c = '0' ∧ nextIsDigit then
        .error ⟨.synErr, "invalid number"⟩
      else do
      let (fracChars, afterFrac) ←
        match afterInt with
        | '.' :: rest =>
          let (ds, rest1) := takeDigits rest
          match ds with
          | [] =>
            if rest1.isEmpty then Except.error ⟨.eofErr, "EOF while parsing a value"⟩
            else Except.error ⟨.synErr, "invalid number"⟩
          | _ => Except.ok ('.' :: ds, rest1)
        | _ => Except.ok ([], afterInt)
      let (expChars, afterExp) ←
        match afterFrac with
        | e :: rest =>
          if e = 'e' ∨ e = 'E' then
            let (esign, rest1) :=
              match rest with
              | '+' :: r => (['+'], r)
              | '-' :: r => (['-'], r)
              | _ => ([], rest)
            let (ds, rest2) := takeDigits rest1
            match ds with
            | [] =>
              if rest2.isEmpty then Except.error ⟨.eofErr, "EOF while parsing a value"⟩
              else Except.error ⟨.synErr, "invalid number"⟩
            | _ => Except.ok (e :: (esign ++ ds), rest2)
          else Except.ok ([], afterFrac)
        | [] => Except.ok ([], afterFrac)
      .ok (String.mk (signChars ++ intDigits ++ fracChars ++ expChars), afterExp)

/-- Literal keyword (`null`, `true`, `false`) continuation check. -/
def expectChars : List Char → List Char → Except JsonErr (List Char)
  | [], rest => .ok rest
  | e :: es, c :: rest =>
    if c = e then expectChars es rest
    else .error ⟨.synErr, "expected ident"⟩
  | _ :: _, [] => .error ⟨.eofErr, "EOF while parsing a value"⟩

mutual

/-- One JSON value from the character stream (fuel-indexed; the document
entry point supplies fuel exceeding any possible nesting, so the fuel
case is unreachable on actual inputs). -/
def parseVal : Nat → List Char → Except JsonErr (Json × List Char)
  | 0, _ => .error ⟨.synErr, "recursion limit exceeded"⟩
  | fuel + 1, cs =>
    match skipWs cs with
    | [] => .error ⟨.eofErr, "EOF while parsing a value"⟩
    | c :: rest =>
      if c = 'n' then
        (expectChars ['u', 'l', 'l'] rest).map (fun r => (Json.null, r))
      else if c = 't' then
        (expectChars ['r', 'u', 'e'] rest).map (fun r => (Json.bool true, r))
      else if c = 'f' then
        (expectChars ['a', 'l', 's', 'e'] rest).map (fun r => (Json.bool false, r))
      else if c = '"' then
        (parseStringBody rest []).map (fun (s, r) => (Json.str s, r))
      else if c = '[' then
        match skipWs rest with
        | ']' :: rest1 => .ok (Json.arr [], rest1)
        | other => parseElems fuel other []
      else if c = '{' then
        match skipWs rest with
        | '}' :: rest1 => .ok (Json.obj [], rest1)
        | other => parseMembers fuel other []
      else if c = '-' ∨ ('0' ≤ c ∧ c ≤ '9') then
        (parseNumber (c :: rest)).map (fun (lit, r) => (Json.num lit, r))
      else .error ⟨.synErr, "expected value"⟩

/-- Array elements after `[`, accumulating in reverse. -/
def parseElems : Nat → List Char → List Json → Except JsonErr (Json × List Char)
  | 0, _, _ => .error ⟨.synErr, "recursion limit exceeded"⟩
  | fuel + 1, cs, acc => do
    let (v, rest) ← parseVal fuel cs
    match skipWs rest with
    | ']' :: rest1 => .ok (Json.arr (v :: acc).reverse, rest1)
    | ',' :: rest1 => parseElems fuel rest1 (v :: acc)
    | [] => .error ⟨.eofErr, "EOF while parsing a list"⟩
    | _ => .error ⟨.synErr, "expected comma or right bracket"⟩

/-- Object members after `{`, with last-write-wins key insertion as in
`serde_json::Map`. -/
def parseMembers : Nat → List Char → List (String × Json) →
    Except JsonErr (Json × List Char)
  | 0, _, _ => .error ⟨.synErr, "recursion limit exceeded"⟩
  | fuel + 1, cs, acc =>
    match skipWs cs with
    | '"' :: rest => do
      let (key, rest1) ← parseStringBody rest []
      match skipWs rest1 with
      | ':' :: rest2 => do
        let (v, rest3) ← parseVal fuel rest2
        match skipWs rest3 with
        | '}' :: rest4 => .ok (Json.obj (insertKey acc key v), rest4)
        | ',' :: rest4 => parseMembers fuel rest4 (insertKey acc key v)
        | [] => .error ⟨.eofErr, "EOF while parsing an object"⟩
        | _ => .error ⟨.synErr, "expected comma or right brace"⟩
      | [] => .error ⟨.eofErr, "EOF while parsing an object"⟩
      | _ => .error ⟨.synErr, "expected colon"⟩
    | [] => .error ⟨.eofErr, "EOF while parsing an object"⟩
    | _ => .error ⟨.synErr, "key must be a string"⟩

end

/-- One whole JSON document from text, as `serde_json::from_reader` /
`from_slice` on an in-memory buffer: one value, then only trailing
whitespace. -/
def parseJsonDocument (s : String) : Except JsonErr Json := do
  let (v, rest) ← parseVal (s.length + 2) s.toList
  match skipWs rest with
  | [] => .ok v
  | _ => .error ⟨.synErr, "trailing characters"⟩

example : parseJsonDocument "null" = .ok Json.null := rfl
example : parseJsonDocument " [1, \"a\", \x7b\"k\": true\x7d] " =
    .ok (Json.arr [Json.num "1", Json.str "a", Json.obj [("k", Json.bool true)]]) := rfl

/-- The `Protocol` enumeration exactly as declared in `model.rs:284-318`:
sixteen renamed unit variants and no catch-all variant. -/
inductive Protocol where
  | http | https | rtsp | rtmp | rtmpe | mms | f4m | ism
  | m3u8 | m3u8Native | httpDashSegments | mhtml
  | httpsHttps | httpDashSegmentsHttps | httpDashSegmentsHttpDashSegments
  | m3u8NativeM3u8Native
  deriving Repr, DecidableEq

/-- The serde-derived deserializer for `Protocol`: a unit-only enum expects
a string equal to one of the `rename` tags; any other string is an
`unknown variant` error, any non-string an `invalid type` error. -/
def parseProtocol (j : Json) : Except String Protocol :=
  match j with
  | .str s =>
    match s with
    | "http" => .ok .http
    | "https" => .ok .https
    | "rtsp" => .ok .rtsp
    | "rtmp" => .ok .rtmp
    | "rtmpe" => .ok .rtmpe
    | "mms" => .ok .mms
    | "f4m" => .ok .f4m
    | "ism" => .ok .ism
    | "m3u8" => .ok .m3u8
    | "m3u8_native" => .ok .m3u8Native
    | "http_dash_segments" => .ok .httpDashSegments
    | "mhtml" => .ok .mhtml
    | "https+https" => .ok .httpsHttps
    | "http_dash_segments+https" => .ok .httpDashSegmentsHttps
    | "http_dash_segments+http_dash_segments" => .ok .httpDashSegmentsHttpDashSegments
    | "m3u8_native+m3u8_native" => .ok .m3u8NativeM3u8Native
    | _ => .error "unknown variant"
  | _ => .error "invalid type: expected a string"

/-- `parse_codec` from `model.rs:324-332`: deserializes
`Option<Option<String>>` (so `null` and missing both collapse to `None`
via `unwrap_or_default`) and maps the literal string `"none"` to `None`. -/
def parse_codec (j : Json) : Except String (Option String) :=
  match j with
  | .null => .ok none
  | .str s => .ok (if s == "none" then none else some s)
  | _ => .error "invalid type: expected a string"

/-- `f64` fields keep the numeric literal; no claim interprets their
magnitude (floating-point values are represented by their source token). -/
abbrev F64Lit := String

/-- serde deserialization of `String` from a `Value`. -/
def parseString (j : Json) : Except String String :=
  match j with
  | .str s => .ok s
  | _ => .error "invalid type: expected a string"

/-- serde deserialization of `bool` from a `Value`. -/
def parseBool (j : Json) : Except String Bool :=
  match j with
  | .bool b => .ok b
  | _ => .error "invalid type: expected a boolean"

/-- serde deserialization of `f64` from a `Value`: any JSON number. -/
def parseF64 (j : Json) : Except String F64Lit :=
  match j with
  | .num lit => .ok lit
  | _ => .error "invalid type: expected a number"

/-- serde deserialization of `i64` from a `Value`: an integer literal in
the `i64` range. -/
def parseI64 (j : Json) : Except String Int :=
  match j with
  | .num lit =>
    match lit.toInt? with
    | some n =>
      if -(2 ^ 63) ≤ n ∧ n < 2 ^ 63 then .ok n
      else .error "invalid value: number out of range"
    | none => .error "invalid type: expected an integer"
  | _ => .error "invalid type: expected an integer"

/-- serde deserialization of `i32` from a `Value`. -/
def parseI32 (j : Json) : Except String Int :=
  match j with
  | .num lit =>
    match lit.toInt? with
    | some n =>
      if -(2 ^ 31) ≤ n ∧ n < 2 ^ 31 then .ok n
      else .error "invalid value: number out of range"
    | none => .error "invalid type: expected an integer"
  | _ => .error "invalid type: expected an integer"

/-- serde deserialization of `serde_json::Value` (accepts anything). -/
def parseAnyValue (j : Json) : Except String Json := .ok j

/-- serde deserialization of an inner `Option<T>` (e.g. the elements of
`Vec<Option<String>>`): `null` maps to `None`. -/
def parseOptOf {α : Type} (p : Json → Except String α) (j : Json) :
    Except String (Option α) :=
  match j with
  | .null => .ok none
  | _ => (p j).map some

/-- serde deserialization of `Vec<T>` from a `Value`: an array, elements
in source order. -/
def parseListOf {α : Type} (p : Json → Except String α) (j : Json) :
    Except String (List α) :=
  match j with
  | .arr xs => xs.mapM p
  | _ => .error "invalid type: expected a sequence"

/-- serde deserialization of `BTreeMap<String, T>` from a `Value` (the
model keeps entries in source order; the claims never inspect map order). -/
def parseMapOf {α : Type} (p : Json → Except String α) (j : Json) :
    Except String (List (String × α)) :=
  match j with
  | .obj fields => fields.mapM (fun kv => (p kv.2).map (fun a => (kv.1, a)))
  | _ => .error "invalid type: expected a map"

/-- An `Option<T>` struct field in the serde derive: absent and `null`
both give `None`; any other value goes through the field deserializer. -/
def getOptField {α : Type} (fields : List (String × Json)) (key : String)
    (p : Json → Except String α) : Except String (Option α) :=
  match lookupKey fields key with
  | none => .ok none
  | some .null => .ok none
  | some j => (p j).map some

/-- A `#[serde(default, deserialize_with = "parse_codec")]` field: missing
keys give the default `None`, present values (including `null`) go through
`parse_codec`. -/
def getCodecField (fields : List (String × Json)) (key : String) :
    Except String (Option String) :=
  match lookupKey fields key with
  | none => .ok none
  | some j => parse_codec j

/-- A required (non-`Option`) `String` struct field: a missing key is a
`missing field` data error. -/
def getReqStrField (fields : List (String × Json)) (key : String) :
    Except String String :=
  match lookupKey fields key with
  | none => .error ("missing field " ++ key)
  | some j => parseString j

/-- `Chapter` (model.rs:11-15). -/
structure Chapter where
  end_time : Option F64Lit
  start_time : Option F64Lit
  title : Option String
  deriving Repr

/-- serde-derived deserializer for `Chapter`. -/
def parseChapter (j : Json) : Except String Chapter :=
  match j with
  | .obj fields => do
    let end_time ← getOptField fields "end_time" parseF64
    let start_time ← getOptField fields "start_time" parseF64
    let title ← getOptField fields "title" parseString
    .ok { end_time, start_time, title }
  | _ => .error "invalid type: expected struct Chapter"

/-- `Comment` (model.rs:17-26). -/
structure Comment where
  author : Option String
  author_id : Option String
  html : Option String
  id : Option String
  parent : Option String
  text : Option String
  timestamp : Option F64Lit
  deriving Repr

/-- serde-derived deserializer for `Comment`. -/
def parseComment (j : Json) : Except String Comment :=
  match j with
  | .obj fields => do
    let author ← getOptField fields "author" parseString
    let author_id ← getOptField fields "author_id" parseString
    let html ← getOptField fields "html" parseString
    let id ← getOptField fields "id" parseString
    let parent ← getOptField fields "parent" parseString
    let text ← getOptField fields "text" parseString
    let timestamp ← getOptField fields "timestamp" parseF64
    .ok { author, author_id, html, id, parent, text, timestamp }
  | _ => .error "invalid type: expected struct Comment"

/-- `Subtitle` (model.rs:267-272). -/
structure Subtitle where
  data : Option String
  ext : Option String
  url : Option String
  deriving Repr

/-- serde-derived deserializer for `Subtitle`. -/
def parseSubtitle (j : Json) : Except String Subtitle :=
  match j with
  | .obj fields => do
    let data ← getOptField fields "data" parseString
    let ext ← getOptField fields "ext" parseString
    let url ← getOptField fields "url" parseString
    .ok { data, ext, url }
  | _ => .error "invalid type: expected struct Subtitle"

/-- `Thumbnail` (model.rs:274-282). -/
structure Thumbnail where
  filesize : Option Int
  height : Option F64Lit
  id : Option String
  preference : Option Int
  url : Option String
  width : Option F64Lit
  deriving Repr

/-- serde-derived deserializer for `Thumbnail`. -/
def parseThumbnail (j : Json) : Except String Thumbnail :=
  match j with
  | .obj fields => do
    let filesize ← getOptField fields "filesize" parseI64
    let height ← getOptField fields "height" parseF64
    let id ← getOptField fields "id" parseString
    let preference ← getOptField fields "preference" parseI64
    let url ← getOptField fields "url" parseString
    let width ← getOptField fields "width" parseF64
    .ok { filesize, height, id, preference, url, width }
  | _ => .error "invalid type: expected struct Thumbnail"

/-- `Fragment` (model.rs:66-72); `duration` is a loosely-typed
`Option<Value>`. -/
structure Fragment where
  duration : Option Json
  filesize : Option Int
  path : Option String
  url : Option String
  deriving Repr

/-- serde-derived deserializer for `Fragment`. -/
def parseFragment (j : Json) : Except String Fragment :=
  match j with
  | .obj fields => do
    let duration ← getOptField fields "duration" parseAnyValue
    let filesize ← getOptField fields "filesize" parseI64
    let path ← getOptField fields "path" parseString
    let url ← getOptField fields "url" parseString
    .ok { duration, filesize, path, url }
  | _ => .error "invalid type: expected struct Fragment"

/-- `Format` (model.rs:28-64): one download alternative.  `acodec` and
`vcodec` carry `#[serde(default, deserialize_with = "parse_codec")]`. -/
structure Format where
  abr : Option F64Lit
  acodec : Option String
  asr : Option F64Lit
  container : Option String
  downloader_options : Option (List (String × Json))
  ext : Option String
  filesize : Option F64Lit
  filesize_approx : Option F64Lit
  format : Option String
  format_id : Option String
  format_note : Option String
  fps : Option F64Lit
  fragment_base_url : Option String
  fragments : Option (List Fragment)
  height : Option F64Lit
  http_headers : Option (List (String × Option String))
  language : Option String
  language_preference : Option Int
  manifest_url : Option String
  no_resume : Option Bool
  player_url : Option String
  preference : Option Json
  protocol : Option Protocol
  quality : Option F64Lit
  resolution : Option String
  source_preference : Option Int
  stretched_ratio : Option F64Lit
  tbr : Option F64Lit
  url : Option String
  vbr : Option F64Lit
  vcodec : Option String
  width : Option F64Lit
  deriving Repr

/-- serde-derived deserializer for `Format`; the codec fields use
`parse_codec`, all other fields are plain `Option`s. -/
def parseFormat (j : Json) : Except String Format :=
  match j with
  | .obj fields => do
    let abr ← getOptField fields "abr" parseF64
    let acodec ← getCodecField fields "acodec"
    let asr ← getOptField fields "asr" parseF64
    let container ← getOptField fields "container" parseString
    let downloader_options ← getOptField fields "downloader_options" (parseMapOf parseAnyValue)
    let ext ← getOptField fields "ext" parseString
    let filesize ← getOptField fields "filesize" parseF64
    let filesize_approx ← getOptField fields "filesize_approx" parseF64
    let format ← getOptField fields "format" parseString
    let format_id ← getOptField fields "format_id" parseString
    let format_note ← getOptField fields "format_note" parseString
    let fps ← getOptField fields "fps" parseF64
    let fragment_base_url ← getOptField fields "fragment_base_url" parseString
    let fragments ← getOptField fields "fragments" (parseListOf parseFragment)
    let height ← getOptField fields "height" parseF64
    let http_headers ← getOptField fields "http_headers" (parseMapOf (parseOptOf parseString))
    let language ← getOptField fields "language" parseString
    let language_preference ← getOptField fields "language_preference" parseI64
    let manifest_url ← getOptField fields "manifest_url" parseString
    let no_resume ← getOptField fields "no_resume" parseBool
    let player_url ← getOptField fields "player_url" parseString
    let preference ← getOptField fields "preference" parseAnyValue
    let protocol ← getOptField fields "protocol" parseProtocol
    let quality ← getOptField fields "quality" parseF64
    let resolution ← getOptField fields "resolution" parseString
    let source_preference ← getOptField fields "source_preference" parseI64
    let stretched_ratio ← getOptField fields "stretched_ratio" parseF64
    let tbr ← getOptField fields "tbr" parseF64
    let url ← getOptField fields "url" parseString
    let vbr ← getOptField fields "vbr" parseF64
    let vcodec ← getCodecField fields "vcodec"
    let width ← getOptField fields "width" parseF64
    .ok { abr, acodec, asr, container, downloader_options, ext, filesize,
          filesize_approx, format, format_id, format_note, fps,
          fragment_base_url, fragments, height, http_headers, language,
          language_preference, manifest_url, no_resume, player_url,
          preference, protocol, quality, resolution, source_preference,
          stretched_ratio, tbr, url, vbr, vcodec, width }
  | _ => .error "invalid type: expected struct Format"

/-- `SingleVideo` (model.rs:162-265): the media item.  `id` and `title`
are the only non-`Option` fields; note that (unlike `Format`) its
`acodec`/`vcodec` are plain `Option<String>` without `parse_codec`. -/
structure SingleVideo where
  abr : Option F64Lit
  acodec : Option String
  age_limit : Option Int
  album : Option String
  album_artist : Option String
  album_type : Option String
  alt_title : Option String
  artist : Option String
  asr : Option F64Lit
  automatic_captions : Option (List (String × List Subtitle))
  average_rating : Option Json
  categories : Option (List (Option String))
  channel : Option String
  channel_id : Option String
  channel_url : Option String
  chapter : Option String
  chapter_id : Option String
  chapter_number : Option String
  chapters : Option (List Chapter)
  comment_count : Option Int
  comments : Option (List Comment)
  container : Option String
  creator : Option String
  description : Option String
  disc_number : Option Int
  dislike_count : Option Int
  display_id : Option String
  downloader_options : Option (List (String × Json))
  duration : Option Json
  duration_string : Option String
  end_time : Option String
  episode : Option String
  episode_id : Option String
  episode_number : Option Int
  epoch : Option Int
  ext : Option String
  extractor : Option String
  extractor_key : Option String
  filesize : Option Int
  filesize_approx : Option F64Lit
  format : Option String
  format_id : Option String
  format_note : Option String
  formats : Option (List Format)
  fps : Option F64Lit
  fragment_base_url : Option String
  fragments : Option (List Fragment)
  genre : Option String
  height : Option F64Lit
  http_headers : Option (List (String × Option String))
  id : String
  is_live : Option Bool
  language : Option String
  language_preference : Option Int
  license : Option String
  like_count : Option Int
  location : Option String
  manifest_url : Option String
  no_resume : Option Bool
  player_url : Option String
  playlist : Option String
  playlist_id : Option String
  playlist_index : Option Json
  playlist_title : Option String
  playlist_uploader : Option String
  playlist_uploader_id : Option String
  preference : Option Json
  protocol : Option Protocol
  quality : Option F64Lit
  release_date : Option String
  release_year : Option Int
  repost_count : Option Int
  requested_subtitles : Option (List (String × Subtitle))
  resolution : Option String
  season : Option String
  season_id : Option String
  season_number : Option Int
  series : Option String
  source_preference : Option Int
  start_time : Option String
  stretched_ratio : Option F64Lit
  subtitles : Option (List (String × Option (List Subtitle)))
  tags : Option (List (Option String))
  tbr : Option F64Lit
  thumbnail : Option String
  thumbnails : Option (List Thumbnail)
  timestamp : Option F64Lit
  title : String
  track : Option String
  track_id : Option String
  track_number : Option String
  upload_date : Option String
  uploader : Option String
  uploader_id : Option String
  uploader_url : Option String
  url : Option String
  vbr : Option F64Lit
  vcodec : Option String
  view_count : Option Int
  webpage_url : Option String
  width : Option F64Lit
  deriving Repr

/-- serde-derived deserializer for `SingleVideo`: every `Option` field
defaults to `None` when missing; `id` and `title` are required `String`s
whose absence is a `missing field` data error. -/
def parseSingleVideo (j : Json) : Except String SingleVideo :=
  match j with
  | .obj fields => do
    let abr ← getOptField fields "abr" parseF64
    let acodec ← getOptField fields "acodec" parseString
    let age_limit ← getOptField fields "age_limit" parseI64
    let album ← getOptField fields "album" parseString
    let album_artist ← getOptField fields "album_artist" parseString
    let album_type ← getOptField fields "album_type" parseString
    let alt_title ← getOptField fields "alt_title" parseString
    let artist ← getOptField fields "artist" parseString
    let asr ← getOptField fields "asr" parseF64
    let automatic_captions ←
      getOptField fields "automatic_captions" (parseMapOf (parseListOf parseSubtitle))
    let average_rating ← getOptField fields "average_rating" parseAnyValue
    let categories ← getOptField fields "categories" (parseListOf (parseOptOf parseString))
    let channel ← getOptField fields "channel" parseString
    let channel_id ← getOptField fields "channel_id" parseString
    let channel_url ← getOptField fields "channel_url" parseString
    let chapter ← getOptField fields "chapter" parseString
    let chapter_id ← getOptField fields "chapter_id" parseString
    let chapter_number ← getOptField fields "chapter_number" parseString
    let chapters ← getOptField fields "chapters" (parseListOf parseChapter)
    let comment_count ← getOptField fields "comment_count" parseI64
    let comments ← getOptField fields "comments" (parseListOf parseComment)
    let container ← getOptField fields "container" parseString
    let creator ← getOptField fields "creator" parseString
    let description ← getOptField fields "description" parseString
    let disc_number ← getOptField fields "disc_number" parseI64
    let dislike_count ← getOptField fields "dislike_count" parseI64
    let display_id ← getOptField fields "display_id" parseString
    let downloader_options ←
      getOptField fields "downloader_options" (parseMapOf parseAnyValue)
    let duration ← getOptField fields "duration" parseAnyValue
    let duration_string ← getOptField fields "duration_string" parseString
    let end_time ← getOptField fields "end_time" parseString
    let episode ← getOptField fields "episode" parseString
    let episode_id ← getOptField fields "episode_id" parseString
    let episode_number ← getOptField fields "episode_number" parseI32
    let epoch ← getOptField fields "epoch" parseI64
    let ext ← getOptField fields "ext" parseString
    let extractor ← getOptField fields "extractor" parseString
    let extractor_key ← getOptField fields "extractor_key" parseString
    let filesize ← getOptField fields "filesize" parseI64
    let filesize_approx ← getOptField fields "filesize_approx" parseF64
    let format ← getOptField fields "format" parseString
    let format_id ← getOptField fields "format_id" parseString
    let format_note ← getOptField fields "format_note" parseString
    let formats ← getOptField fields "formats" (parseListOf parseFormat)
    let fps ← getOptField fields "fps" parseF64
    let fragment_base_url ← getOptField fields "fragment_base_url" parseString
    let fragments ← getOptField fields "fragments" (parseListOf parseFragment)
    let genre ← getOptField fields "genre" parseString
    let height ← getOptField fields "height" parseF64
    let http_headers ←
      getOptField fields "http_headers" (parseMapOf (parseOptOf parseString))
    let id ← getReqStrField fields "id"
    let is_live ← getOptField fields "is_live" parseBool
    let language ← getOptField fields "language" parseString
    let language_preference ← getOptField fields "language_preference" parseI64
    let license ← getOptField fields "license" parseString
    let like_count ← getOptField fields "like_count" parseI64
    let location ← getOptField fields "location" parseString
    let manifest_url ← getOptField fields "manifest_url" parseString
    let no_resume ← getOptField fields "no_resume" parseBool
    let player_url ← getOptField fields "player_url" parseString
    let playlist ← getOptField fields "playlist" parseString
    let playlist_id ← getOptField fields "playlist_id" parseString
    let playlist_index ← getOptField fields "playlist_index" parseAnyValue
    let playlist_title ← getOptField fields "playlist_title" parseString
    let playlist_uploader ← getOptField fields "playlist_uploader" parseString
    let playlist_uploader_id ← getOptField fields "playlist_uploader_id" parseString
    let preference ← getOptField fields "preference" parseAnyValue
    let protocol ← getOptField fields "protocol" parseProtocol
    let quality ← getOptField fields "quality" parseF64
    let release_date ← getOptField fields "release_date" parseString
    let release_year ← getOptField fields "release_year" parseI64
    let repost_count ← getOptField fields "repost_count" parseI64
    let requested_subtitles ←
      getOptField fields "requested_subtitles" (parseMapOf parseSubtitle)
    let resolution ← getOptField fields "resolution" parseString
    let season ← getOptField fields "season" parseString
    let season_id ← getOptField fields "season_id" parseString
    let season_number ← getOptField fields "season_number" parseI32
    let series ← getOptField fields "series" parseString
    let source_preference ← getOptField fields "source_preference" parseI64
    let start_time ← getOptField fields "start_time" parseString
    let stretched_ratio ← getOptField fields "stretched_ratio" parseF64
    let subtitles ←
      getOptField fields "subtitles" (parseMapOf (parseOptOf (parseListOf parseSubtitle)))
    let tags ← getOptField fields "tags" (parseListOf (parseOptOf parseString))
    let tbr ← getOptField fields "tbr" parseF64
    let thumbnail ← getOptField fields "thumbnail" parseString
    let thumbnails ← getOptField fields "thumbnails" (parseListOf parseThumbnail)
    let timestamp ← getOptField fields "timestamp" parseF64
    let title ← getReqStrField fields "title"
    let track ← getOptField fields "track" parseString
    let track_id ← getOptField fields "track_id" parseString
    let track_number ← getOptField fields "track_number" parseString
    let upload_date ← getOptField fields "upload_date" parseString
    let uploader ← getOptField fields "uploader" parseString
    let uploader_id ← getOptField fields "uploader_id" parseString
    let uploader_url ← getOptField fields "uploader_url" parseString
    let url ← getOptField fields "url" parseString
    let vbr ← getOptField fields "vbr" parseF64
    let vcodec ← getOptField fields "vcodec" parseString
    let view_count ← getOptField fields "view_count" parseI64
    let webpage_url ← getOptField fields "webpage_url" parseString
    let width ← getOptField fields "width" parseF64
    .ok { abr, acodec, age_limit, album, album_artist, album_type, alt_title,
          artist, asr, automatic_captions, average_rating, categories,
          channel, channel_id, channel_url, chapter, chapter_id,
          chapter_number, chapters, comment_count, comments, container,
          creator, description, disc_number, dislike_count, display_id,
          downloader_options, duration, duration_string, end_time, episode,
          episode_id, episode_number, epoch, ext, extractor, extractor_key,
          filesize, filesize_approx, format, format_id, format_note,
          formats, fps, fragment_base_url, fragments, genre, height,
          http_headers, id, is_live, language, language_preference,
          license, like_count, location, manifest_url, no_resume,
          player_url, playlist, playlist_id, playlist_index,
          playlist_title, playlist_uploader, playlist_uploader_id,
          preference, protocol, quality, release_date, release_year,
          repost_count, requested_subtitles, resolution, season, season_id,
          season_number, series, source_preference, start_time,
          stretched_ratio, subtitles, tags, tbr, thumbnail, thumbnails,
          timestamp, title, track, track_id, track_number, upload_date,
          uploader, uploader_id, uploader_url, url, vbr, vcodec,
          view_count, webpage_url, width }
  | _ => .error "invalid type: expected struct SingleVideo"

/-- `Playlist` (model.rs:147-160); `entries` preserves array order. -/
structure Playlist where
  entries : Option (List SingleVideo)
  extractor : Option String
  extractor_key : Option String
  id : Option String
  title : Option String
  uploader : Option String
  uploader_id : Option String
  uploader_url : Option String
  webpage_url : Option String
  webpage_url_basename : Option String
  thumbnails : Option (List Thumbnail)
  deriving Repr

/-- serde-derived deserializer for `Playlist`: all fields optional. -/
def parsePlaylist (j : Json) : Except String Playlist :=
  match j with
  | .obj fields => do
    let entries ← getOptField fields "entries" (parseListOf parseSingleVideo)
    let extractor ← getOptField fields "extractor" parseString
    let extractor_key ← getOptField fields "extractor_key" parseString
    let id ← getOptField fields "id" parseString
    let title ← getOptField fields "title" parseString
    let uploader ← getOptField fields "uploader" parseString
    let uploader_id ← getOptField fields "uploader_id" parseString
    let uploader_url ← getOptField fields "uploader_url" parseString
    let webpage_url ← getOptField fields "webpage_url" parseString
    let webpage_url_basename ← getOptField fields "webpage_url_basename" parseString
    let thumbnails ← getOptField fields "thumbnails" (parseListOf parseThumbnail)
    .ok { entries, extractor, extractor_key, id, title, uploader,
          uploader_id, uploader_url, webpage_url, webpage_url_basename,
          thumbnails }
  | _ => .error "invalid type: expected struct Playlist"

/-- `YoutubeDlOutput` (lib.rs:50-55): the discriminated result union. -/
inductive YoutubeDlOutput where
  | playlist (p : Playlist) : YoutubeDlOutput
  | singleVideo (v : SingleVideo) : YoutubeDlOutput
  deriving Repr

/-- `YoutubeDlOutput::into_single_video` (lib.rs:59-64). -/
def YoutubeDlOutput.into_single_video : YoutubeDlOutput → Option SingleVideo
  | .singleVideo video => some video
  | _ => none

/-- `YoutubeDlOutput::into_playlist` (lib.rs:67-72). -/
def YoutubeDlOutput.into_playlist : YoutubeDlOutput → Option Playlist
  | .playlist p => some p
  | _ => none

/-- The crate's `Error` enum (lib.rs:77-102); the feature-gated download
variants are outside the claims' scope.  `json` keeps the
`serde_json::Error` category so that parse-errors and schema-errors stay
distinguishable, as `Error::Json(err)` does by exposing `err.classify()`. -/
inductive Error where
  | io (msg : String) : Error
  | json (kind : JsonErrKind) (msg : String) : Error
  | exitCode (code : Int) (stderr : String) : Error
  | processTimeout : Error
  deriving Repr

/-- The value-level half of `process_json_output` (lib.rs:679-686): branch
on `value["_type"] == json!("playlist")` and re-deserialize the generic
value into the matching typed shape.  `serde_json::from_value` failures
carry the `Data` category. -/
def processJsonValue (value : Json) : Except Error YoutubeDlOutput :=
  if isPlaylistValue value then
    match parsePlaylist value with
    | .ok playlist => .ok (.playlist playlist)
    | .error m => .error (.json .dataErr m)
  else
    match parseSingleVideo value with
    | .ok video => .ok (.singleVideo video)
    | .error m => .error (.json .dataErr m)

/-- `process_json_output` (lib.rs:668-687): generic parse of the stdout
buffer (`serde_json::from_reader`, lib.rs:677), then the discriminating
re-deserialization.  The buffer is modelled as text. -/
def process_json_output (stdout : String) : Except Error YoutubeDlOutput :=
  match parseJsonDocument stdout with
  | .error e => .error (.json e.kind e.msg)
  | .ok value => processJsonValue value

/-- `std::process::ExitStatus`: success flag and the numeric code, which
is `None` when the process was signal-terminated. -/
structure ExitStatus where
  success : Bool
  code : Option Int
  deriving Repr

/-- `ProcessResult` (lib.rs:799-803): captured streams plus exit status;
stderr is kept as raw bytes (`Vec<u8>`). -/
structure ProcessResult where
  stdout : String
  stderr : List Nat
  exit_code : ExitStatus
  deriving Repr

/-- The outcome-classification half of `run` (lib.rs:700-708), applied to
a completed `run_process` result: on success or with the `ignore_errors`
opt-in, hand stdout to the deserializer; otherwise build `Error::ExitCode`
with `String::from_utf8(stderr).unwrap_or_default()` and
`exit_code.code().unwrap_or(1)`. -/
def run (ignore_errors : Bool) (pr : ProcessResult) : Except Error YoutubeDlOutput :=
  if pr.exit_code.success || ignore_errors then
    process_json_output pr.stdout
  else
    let stderr := (rustFromUtf8 pr.stderr).getD ""
    .error (.exitCode (pr.exit_code.code.getD 1) stderr)

/-- Observable behavior of one spawned child process, on an abstract
discrete clock starting at the spawn instant.  `stdout_close_time` is
when the child closes its stdout write end (the drain's EOF), `exit_time`
when it exits; a pipe reader reaches EOF no later than process exit, so
`stdout_close_time ≤ exit_time` for real children. -/
structure ChildBehavior where
  spawn_fails : Bool
  stdout_data : String
  stdout_close_time : Nat
  exit_time : Nat
  exit_status : ExitStatus
  stderr_data : List Nat
  deriving Repr

/-- State of the child process at the instant `run_process` returns. -/
inductive ChildFinal where
  | noChild : ChildFinal
  | exited : ChildFinal
  | killed : ChildFinal
  deriving Repr, DecidableEq

/-- What one `run_process` call produced: its Rust return value, the
child's state when it returned, and the instant it returned. -/
structure RunProcessOutcome where
  result : Except Error ProcessResult
  child : ChildFinal
  return_time : Nat
  deriving Repr

/-- Timed model of `run_process` (lib.rs:567-615): spawn; then
`std::io::copy` drains stdout **to EOF** (blocking until the child closes
stdout, lib.rs:589-591); only then `wait_timeout` races the configured
timeout against process exit (lib.rs:593-603), killing the child and
discarding the drained stdout when the timeout wins; stderr is read after
exit (lib.rs:605-608). -/
def run_process (process_timeout : Option Nat) (c : ChildBehavior) : RunProcessOutcome :=
  if c.spawn_fails then
    { result := .error (.io "No such file or directory"),
      child := .noChild, return_time := 0 }
  else
    let drainDone := c.stdout_close_time
    match process_timeout with
    | some t =>
      if c.exit_time ≤ drainDone + t then
        { result := .ok { stdout := c.stdout_data, stderr := c.stderr_data,
                          exit_code := c.exit_status },
          child := .exited, return_time := max drainDone c.exit_time }
      else
        { result := .error .processTimeout,
          child := .killed, return_time := drainDone + t }
    | none =>
      { result := .ok { stdout := c.stdout_data, stderr := c.stderr_data,
                        exit_code := c.exit_status },
        child := .exited, return_time := max drainDone c.exit_time }

/-- The whole `run` call (lib.rs:692-709) over the timed process model:
`run_process` with the builder's configured timeout, then the
outcome-classification and deserialization stage. -/
def runFull (ignore_errors : Bool) (process_timeout : Option Nat)
    (c : ChildBehavior) : Except Error YoutubeDlOutput × ChildFinal :=
  let o := run_process process_timeout c
  match o.result with
  | .error e => (.error e, o.child)
  | .ok pr => (run ignore_errors pr, o.child)

/-- The media item holding only the two required fields; every optional
field absent. -/
def minVideo (i t : String) : SingleVideo := {
    abr := none,
    acodec := none,
    age_limit := none,
    album := none,
    album_artist := none,
    album_type := none,
    alt_title := none,
    artist := none,
    asr := none,
    automatic_captions := none,
    average_rating := none,
    categories := none,
    channel := none,
    channel_id := none,
    channel_url := none,
    chapter := none,
    chapter_id := none,
    chapter_number := none,
    chapters := none,
    comment_count := none,
    comments := none,
    container := none,
    creator := none,
    description := none,
    disc_number := none,
    dislike_count := none,
    display_id := none,
    downloader_options := none,
    duration := none,
    duration_string := none,
    end_time := none,
    episode := none,
    episode_id := none,
    episode_number := none,
    epoch := none,
    ext := none,
    extractor := none,
    extractor_key := none,
    filesize := none,
    filesize_approx := none,
    format := none,
    format_id := none,
    format_note := none,
    formats := none,
    fps := none,
    fragment_base_url := none,
    fragments := none,
    genre := none,
    height := none,
    http_headers := none,
    id := i,
    is_live := none,
    language := none,
    language_preference := none,
    license := none,
    like_count := none,
    location := none,
    manifest_url := none,
    no_resume := none,
    player_url := none,
    playlist := none,
    playlist_id := none,
    playlist_index := none,
    playlist_title := none,
    playlist_uploader := none,
    playlist_uploader_id := none,
    preference := none,
    protocol := none,
    quality := none,
    release_date := none,
    release_year := none,
    repost_count := none,
    requested_subtitles := none,
    resolution := none,
    season := none,
    season_id := none,
    season_number := none,
    series := none,
    source_preference := none,
    start_time := none,
    stretched_ratio := none,
    subtitles := none,
    tags := none,
    tbr := none,
    thumbnail := none,
    thumbnails := none,
    timestamp := none,
    title := t,
    track := none,
    track_id := none,
    track_number := none,
    upload_date := none,
    uploader := none,
    uploader_id := none,
    uploader_url := none,
    url := none,
    vbr := none,
    vcodec := none,
    view_count := none,
    webpage_url := none,
    width := none }
/-- The playlist with every optional field absent. -/
def emptyPlaylist : Playlist :=
  { entries := none, extractor := none, extractor_key := none, id := none,
    title := none, uploader := none, uploader_id := none, uploader_url := none,
    webpage_url := none, webpage_url_basename := none, thumbnails := none }

/-- The format with every optional field absent. -/
def emptyFormat : Format :=
  { abr := none, acodec := none, asr := none, container := none,
    downloader_options := none, ext := none, filesize := none,
    filesize_approx := none, format := none, format_id := none,
    format_note := none, fps := none, fragment_base_url := none,
    fragments := none, height := none, http_headers := none,
    language := none, language_preference := none, manifest_url := none,
    no_resume := none, player_url := none, preference := none,
    protocol := none, quality := none, resolution := none,
    source_preference := none, stretched_ratio := none, tbr := none,
    url := none, vbr := none, vcodec := none, width := none }

/-- Byte vector of an ASCII string (as the canned stderr of a test). -/
def asciiBytes (s : String) : List Nat := s.data.map Char.toNat

/-- A playlist document with one entry. -/
def samplePlaylistDoc : Json :=
  Json.obj [("_type", Json.str "playlist"),
    ("entries", Json.arr [Json.obj [("id", Json.str "a"), ("title", Json.str "t")]])]

/-- The typed value `samplePlaylistDoc` deserializes to. -/
def samplePlaylist : Playlist :=
  { emptyPlaylist with entries := some [minVideo "a" "t"] }

/-- A child that runs for 10 time units, holds its stdout write end open
until it exits (the usual case: the pipe reaches EOF at process exit),
emits one valid JSON item and exits successfully. -/
def slowChild : ChildBehavior :=
  { spawn_fails := false,
    stdout_data := "\x7b\"id\":\"a\",\"title\":\"t\"\x7d",
    stdout_close_time := 10, exit_time := 10,
    exit_status := { success := true, code := some 0 },
    stderr_data := [] }

theorem parse_codec_not_none {j : Json} {r : Option String}
    (h : parse_codec j = .ok r) : r ≠ some "none" := by
  cases j with
  | null => simp [parse_codec] at h; simp [← h]
  | str s =>
    simp [parse_codec] at h
    by_cases hs : s = "none"
    · simp [hs] at h; simp [← h]
    · simp [hs] at h; simp [← h, hs]
  | bool b => simp [parse_codec] at h
  | num l => simp [parse_codec] at h
  | arr xs => simp [parse_codec] at h
  | obj fs => simp [parse_codec] at h

theorem getCodec_not_none {fields : List (String × Json)} {k : String} {r : Option String}
    (h : getCodecField fields k = .ok r) : r ≠ some "none" := by
  unfold getCodecField at h
  cases hl : lookupKey fields k with
  | none => rw [hl] at h; simp at h; simp [← h]
  | some j => rw [hl] at h; exact parse_codec_not_none h

theorem parseFormat_codecs_not_none {j : Json} {f : Format}
    (h : parseFormat j = .ok f) :
    f.acodec ≠ some "none" ∧ f.vcodec ≠ some "none" := by
  cases j with
  | obj fields =>
    simp only [parseFormat, exc_bind_eq_ok, Except.ok.injEq] at h
    obtain ⟨vabr, habr, vacodec, hacodec, vasr, hasr, vcontainer, hcontainer,
      vdownloader_options, hdownloader_options, vext, hext, vfilesize, hfilesize,
      vfilesize_approx, hfilesize_approx, vformat, hformat, vformat_id, hformat_id,
      vformat_note, hformat_note, vfps, hfps, vfragment_base_url, hfragment_base_url,
      vfragments, hfragments, vheight, hheight, vhttp_headers, hhttp_headers,
      vlanguage, hlanguage, vlanguage_preference, hlanguage_preference,
      vmanifest_url, hmanifest_url, vno_resume, hno_resume, vplayer_url, hplayer_url,
      vpreference, hpreference, vprotocol, hprotocol, vquality, hquality,
      vresolution, hresolution, vsource_preference, hsource_preference,
      vstretched_ratio, hstretched_ratio, vtbr, htbr, vurl, hurl, vvbr, hvbr,
      vvcodec, hvcodec, vwidth, hwidth, hfin⟩ := h
    subst hfin
    exact ⟨getCodec_not_none hacodec, getCodec_not_none hvcodec⟩
  | null => simp [parseFormat] at h
  | bool b => simp [parseFormat] at h
  | num l => simp [parseFormat] at h
  | str s => simp [parseFormat] at h
  | arr xs => simp [parseFormat] at h

theorem mapM_ok_forall2 {α β : Type} {f : α → Except String β} :
    ∀ {xs : List α} {ys : List β}, List.mapM f xs = .ok ys →
      List.Forall₂ (fun x y => f x = .ok y) xs ys := by
  intro xs
  induction xs with
  | nil =>
    intro ys h
    rw [← List.mapM'_eq_mapM] at h
    simp only [List.mapM'] at h
    cases h
    exact List.Forall₂.nil
  | cons x xs ih =>
    intro ys h
    rw [← List.mapM'_eq_mapM] at h
    simp only [List.mapM'] at h
    rw [List.mapM'_eq_mapM] at h
    simp only [exc_bind_eq_ok] at h
    obtain ⟨y, hy, ys', hys', hfin⟩ := h
    have : y :: ys' = ys := by
      simpa [pure, Except.pure] using hfin
    subst this
    exact List.Forall₂.cons hy (ih hys')

theorem isPlaylistValue_eq_true_iff {v : Json} :
    isPlaylistValue v = true ↔ v.index "_type" = Json.str "playlist" := by
  unfold isPlaylistValue
  cases hidx : v.index "_type" <;> simp

theorem playlist_entries_rel {v : Json} {p : Playlist} {es : List SingleVideo}
    (h : parsePlaylist v = .ok p) (he : p.entries = some es) :
    ∃ arr, v.index "entries" = Json.arr arr ∧
      List.Forall₂ (fun je e => parseSingleVideo je = .ok e) arr es := by
  cases v with
  | obj fields =>
    simp only [parsePlaylist, exc_bind_eq_ok, Except.ok.injEq] at h
    obtain ⟨e1, he1, e2, he2, e3, he3, e4, he4, e5, he5, e6, he6, e7, he7,
      e8, he8, e9, he9, e10, he10, e11, he11, hfin⟩ := h
    subst hfin
    replace he : e1 = some es := he
    subst he
    unfold getOptField at he1
    cases hl : lookupKey fields "entries" with
    | none => rw [hl] at he1; cases he1
    | some j =>
      rw [hl] at he1
      cases j with
      | null => cases he1
      | arr arr =>
        refine ⟨arr, ?_, ?_⟩
        · show (lookupKey fields "entries").getD .null = Json.arr arr
          rw [hl]; rfl
        · simp only [parseListOf] at he1
          cases hm : List.mapM parseSingleVideo arr with
          | error m => rw [hm] at he1; cases he1
          | ok ys =>
            rw [hm] at he1
            replace he1 : Except.ok (some ys) = Except.ok (some es) := he1
            cases he1
            exact mapM_ok_forall2 hm
      | bool b => simp [parseListOf] at he1; cases he1
      | num l => simp [parseListOf] at he1; cases he1
      | str s => simp [parseListOf] at he1; cases he1
      | obj o => simp [parseListOf] at he1; cases he1
  | null => simp [parsePlaylist] at h
  | bool b => simp [parsePlaylist] at h
  | num l => simp [parsePlaylist] at h
  | str s => simp [parsePlaylist] at h
  | arr a => simp [parsePlaylist] at h

/-- C1: the spec claims deserializing any JSON string into `Protocol`
succeeds, mapping unrecognized tags to a catch-all `Unknown` member.  The
`Protocol` enum in `model.rs` has no such member: a recognized tag maps to
its variant, but an unrecognized string (the crate's own test
`test_protocol_fallback` uses `"some_unknown_protocol"` and expects
`Protocol::Unknown`) is rejected with an `unknown variant` error, also
when it occurs as the `protocol` field of an otherwise valid item. -/
theorem protocol_unknown_variant_rejected :
    parseProtocol (Json.str "http") = .ok Protocol.http ∧
    parseProtocol (Json.str "some_unknown_protocol") = .error "unknown variant" ∧
    processJsonValue (Json.obj [("id", Json.str "x"), ("title", Json.str "t"),
      ("protocol", Json.str "some_unknown_protocol")]) =
        .error (.json .dataErr "unknown variant") := ⟨rfl, rfl, rfl⟩

/-- C2 counterexample: on `SingleVideo` (unlike `Format`) the codec fields
carry no `parse_codec` attribute, so `"none"` deserializes to
`Some("none")` for both `acodec` and `vcodec` — refuting the claim that
the normalization is applied uniformly to every codec field. -/
theorem single_video_codec_none_preserved_cex :
    (parseSingleVideo (Json.obj [("id", Json.str "x"), ("title", Json.str "t"),
        ("acodec", Json.str "none"), ("vcodec", Json.str "none")])).map
      (fun v => (v.acodec, v.vcodec)) = .ok (some "none", some "none") := rfl

/-- C2 (amended): the `"none"`-to-absent codec normalization holds for
both codec fields of `Format` (no successfully parsed `Format` ever holds
the literal `"none"`), but `SingleVideo`'s `acodec`/`vcodec` are plain
optional strings that preserve `"none"` verbatim. -/
theorem codec_normalization_format_only (j : Json) (f : Format)
    (h : parseFormat j = .ok f) :
    f.acodec ≠ some "none" ∧ f.vcodec ≠ some "none" ∧
    (∀ i t, parseSingleVideo (Json.obj [("id", Json.str i), ("title", Json.str t),
        ("acodec", Json.str "none"), ("vcodec", Json.str "none")]) =
      .ok { minVideo i t with acodec := some "none", vcodec := some "none" }) := by
  refine ⟨(parseFormat_codecs_not_none h).1, (parseFormat_codecs_not_none h).2,
    fun i t => rfl⟩

/-- C2 witness: the amended theorem applied to a concrete format object
whose codec fields are `"none"`, which deserializes with both absent. -/
theorem codec_normalization_format_only_witness :
    emptyFormat.acodec ≠ some "none" ∧
    parseFormat (Json.obj [("acodec", Json.str "none"), ("vcodec", Json.str "none")]) =
      .ok emptyFormat := by
  have h := codec_normalization_format_only
    (Json.obj [("acodec", Json.str "none"), ("vcodec", Json.str "none")]) emptyFormat rfl
  exact ⟨h.1, rfl⟩

/-- C3 counterexample: `run` decodes stderr with
`String::from_utf8(..).unwrap_or_default()`, not a lossy decode: for the
bytes `[0x45, 0xFF]` the carried stderr text is the empty string, even
though the valid portion `[0x45]` alone decodes to `"E"` — so valid
portions are lost, refuting the permissive-replacement claim. -/
theorem run_stderr_strict_not_lossy_cex :
    run false ⟨"", [69, 255], ⟨false, some 1⟩⟩ = .error (.exitCode 1 "") ∧
    rustFromUtf8 [69] = some "E" := ⟨rfl, rfl⟩

/-- C3 (amended): on a non-zero exit without the ignore-errors opt-in,
the error-reporting path itself never fails, but the stderr text is the
strict UTF-8 decoding of the captured bytes with the empty string (not a
replacement-character decoding) substituted whenever any byte sequence is
invalid. -/
theorem run_stderr_strict_decoding (pr : ProcessResult)
    (h : pr.exit_code.success = false) :
    run false pr = .error (.exitCode (pr.exit_code.code.getD 1)
      ((rustFromUtf8 pr.stderr).getD "")) := by
  simp [run, h]

/-- C3 witness: the amended theorem at a concrete invalid-UTF-8 stderr. -/
theorem run_stderr_strict_decoding_witness :
    run false ⟨"", [69, 255], ⟨false, some 2⟩⟩ = .error (.exitCode 2 "") := by
  have h := run_stderr_strict_decoding ⟨"", [69, 255], ⟨false, some 2⟩⟩ rfl
  exact h.trans rfl

/-- C4: whenever the discriminating deserializer succeeds, the result is
the playlist variant exactly when the top-level `_type` member equals the
string `"playlist"` (single-item otherwise, including when `_type` is
absent), and each deserialized entry list corresponds element-by-element,
in order, to the source `entries` array. -/
theorem discriminating_deserializer_variant_selection (v : Json) (out : YoutubeDlOutput)
    (h : processJsonValue v = .ok out) :
    (v.index "_type" = Json.str "playlist" ↔ out.into_playlist.isSome = true) ∧
    (v.index "_type" ≠ Json.str "playlist" ↔ out.into_single_video.isSome = true) ∧
    (∀ p es, out = .playlist p → p.entries = some es →
      ∃ arr, v.index "entries" = Json.arr arr ∧
        List.Forall₂ (fun je e => parseSingleVideo je = .ok e) arr es) := by
  unfold processJsonValue at h
  by_cases hd : isPlaylistValue v = true
  · rw [if_pos hd] at h
    cases hp : parsePlaylist v with
    | error m => rw [hp] at h; cases h
    | ok p =>
      rw [hp] at h
      cases h
      refine ⟨?_, ?_, ?_⟩
      · simp [YoutubeDlOutput.into_playlist, isPlaylistValue_eq_true_iff.mp hd]
      · simp [YoutubeDlOutput.into_single_video, isPlaylistValue_eq_true_iff.mp hd]
      · intro p' es hpp hes
        cases hpp
        exact playlist_entries_rel hp hes
  · rw [if_neg hd] at h
    cases hs : parseSingleVideo v with
    | error m => rw [hs] at h; cases h
    | ok sv =>
      rw [hs] at h
      cases h
      have hne : ¬ v.index "_type" = Json.str "playlist" := fun hq =>
        hd (isPlaylistValue_eq_true_iff.mpr hq)
      refine ⟨?_, ?_, ?_⟩
      · simp [YoutubeDlOutput.into_playlist, hne]
      · simp [YoutubeDlOutput.into_single_video, hne]
      · intro p es hpp
        cases hpp

/-- C4 witness: the discriminant theorem applied to a concrete playlist
document with one entry and to a concrete single-item document. -/
theorem discriminating_deserializer_variant_selection_witness :
    (YoutubeDlOutput.playlist samplePlaylist).into_playlist.isSome = true ∧
    (YoutubeDlOutput.singleVideo (minVideo "x" "t")).into_single_video.isSome = true ∧
    List.Forall₂ (fun je e => parseSingleVideo je = .ok e)
      [Json.obj [("id", Json.str "a"), ("title", Json.str "t")]] [minVideo "a" "t"] := by
  have h1 := discriminating_deserializer_variant_selection samplePlaylistDoc
    (.playlist samplePlaylist) rfl
  have h2 := discriminating_deserializer_variant_selection
    (Json.obj [("id", Json.str "x"), ("title", Json.str "t")])
    (.singleVideo (minVideo "x" "t")) rfl
  refine ⟨h1.1.mp rfl, h2.2.1.mp (by intro hq; cases hq), ?_⟩
  obtain ⟨arr, harr, hf⟩ := h1.2.2 samplePlaylist [minVideo "a" "t"] rfl rfl
  have harr2 : Json.arr [Json.obj [("id", Json.str "a"), ("title", Json.str "t")]] =
      Json.arr arr := by rw [← harr]; rfl
  cases harr2
  exact hf

/-- C5: the spec claims a configured timeout shorter than the tool's
runtime always yields `ProcessTimeout` with the child terminated.  In
`run_process` the stdout drain (`std::io::copy`) runs to EOF **before**
`wait_timeout` starts, so a child that holds stdout open until it exits
at time 10 under a timeout of 1 is never timed out: the call blocks for
the full 10 units and returns the parsed output normally. -/
theorem process_timeout_not_enforced :
    1 < slowChild.exit_time ∧
    runFull false (some 1) slowChild =
      (.ok (.singleVideo (minVideo "a" "t")), .exited) ∧
    (run_process (some 1) slowChild).return_time = 10 := ⟨by decide, rfl, rfl⟩

/-- C6: with a non-zero exit status and no ignore-errors opt-in, `run`
returns `ExitCode` carrying `code` and the captured stderr text, and its
result does not depend on stdout (no deserialization is attempted); with
the opt-in, `run` hands stdout to the deserializer regardless of the exit
status. -/
theorem run_exit_code_gating (pr : ProcessResult) :
    (pr.exit_code.success = false →
      (∀ s, rustFromUtf8 pr.stderr = some s →
        run false pr = .error (.exitCode (pr.exit_code.code.getD 1) s)) ∧
      (∀ alt : String, run false { pr with stdout := alt } = run false pr)) ∧
    run true pr = process_json_output pr.stdout := by
  refine ⟨fun h => ⟨fun s hs => ?_, fun alt => ?_⟩, ?_⟩
  · simp [run, h, hs]
  · simp [run, h]
  · simp [run]

/-- C6 witness: the gating theorem at the spec's canned outcome, stderr
`"ERROR: video unavailable"` and exit code 1. -/
theorem run_exit_code_gating_witness :
    run false ⟨"ignored", asciiBytes "ERROR: video unavailable", ⟨false, some 1⟩⟩ =
      .error (.exitCode 1 "ERROR: video unavailable") ∧
    run true ⟨"ignored", asciiBytes "ERROR: video unavailable", ⟨false, some 1⟩⟩ =
      process_json_output "ignored" := by
  have h := run_exit_code_gating
    ⟨"ignored", asciiBytes "ERROR: video unavailable", ⟨false, some 1⟩⟩
  exact ⟨(h.1 rfl).1 "ERROR: video unavailable" rfl, h.2⟩

/-- C7: deserializing a single-item object with no `id` (or no `title`)
member never succeeds, whatever the other members hold; a document with
only `id` and `title` succeeds with every other field absent; a missing
required field is a `Data`-category error while malformed text is a
`Syntax`-category error, and the two categories are distinct. -/
theorem required_fields_and_error_kinds :
    (∀ fields sv, lookupKey fields "id" = none →
      parseSingleVideo (Json.obj fields) ≠ .ok sv) ∧
    (∀ fields sv, lookupKey fields "title" = none →
      parseSingleVideo (Json.obj fields) ≠ .ok sv) ∧
    processJsonValue (Json.obj [("id", Json.str "x"), ("title", Json.str "t")]) =
      .ok (.singleVideo (minVideo "x" "t")) ∧
    processJsonValue (Json.obj [("title", Json.str "t")]) =
      .error (.json .dataErr "missing field id") ∧
    processJsonValue (Json.obj [("id", Json.str "x")]) =
      .error (.json .dataErr "missing field title") ∧
    process_json_output "nonsense" = .error (.json .synErr "expected ident") ∧
    JsonErrKind.synErr ≠ JsonErrKind.dataErr := by
  refine ⟨?_, ?_, rfl, rfl, rfl, rfl, by decide⟩
  · intro fields sv h hok
    simp only [parseSingleVideo, exc_bind_eq_ok] at hok
    simp [getReqStrField, h] at hok
  · intro fields sv h hok
    simp only [parseSingleVideo, exc_bind_eq_ok] at hok
    simp [getReqStrField, h] at hok

/-- C7 witness: the required-field theorem at a concrete object lacking
`id`. -/
theorem required_fields_and_error_kinds_witness :
    parseSingleVideo (Json.obj [("title", Json.str "t")]) ≠ .ok (minVideo "x" "t") :=
  required_fields_and_error_kinds.1 [("title", Json.str "t")] (minVideo "x" "t") rfl

/-- C8: a `duration` member encoded as a JSON number or as a JSON string
deserializes without error on a single-item document and on a playlist
entry, preserved as the loosely-typed value. -/
theorem duration_number_or_string_accepted (lit s i t : String) :
    parseSingleVideo (Json.obj [("id", Json.str i), ("title", Json.str t),
        ("duration", Json.num lit)]) =
      .ok { minVideo i t with duration := some (Json.num lit) } ∧
    parseSingleVideo (Json.obj [("id", Json.str i), ("title", Json.str t),
        ("duration", Json.str s)]) =
      .ok { minVideo i t with duration := some (Json.str s) } ∧
    processJsonValue (Json.obj [("_type", Json.str "playlist"),
        ("entries", Json.arr [Json.obj [("id", Json.str i), ("title", Json.str t),
          ("duration", Json.num lit)]])]) =
      .ok (.playlist { emptyPlaylist with
        entries := some [{ minVideo i t with duration := some (Json.num lit) }] }) :=
  ⟨rfl, rfl, rfl⟩

/-- C9: the two projections are total and mirrored: on a single-item
result `into_single_video` returns the item and `into_playlist` returns
`none`; on a collection result the mirror holds. -/
theorem projections_total_and_mirrored (o : YoutubeDlOutput) :
    (∃ v, o = .singleVideo v ∧ o.into_single_video = some v ∧ o.into_playlist = none) ∨
    (∃ p, o = .playlist p ∧ o.into_playlist = some p ∧ o.into_single_video = none) := by
  cases o with
  | playlist p => exact Or.inr ⟨p, rfl, rfl, rfl⟩
  | singleVideo v => exact Or.inl ⟨v, rfl, rfl, rfl⟩

/-- C10: an unsuccessful exit status carrying no numeric code (signal
termination) makes `run` report `ExitCode` with code 1, via
`exit_code.code().unwrap_or(1)`. -/
theorem run_signal_termination_defaults_code_one (pr : ProcessResult)
    (h1 : pr.exit_code.success = false) (h2 : pr.exit_code.code = none) :
    run false pr = .error (.exitCode 1 ((rustFromUtf8 pr.stderr).getD "")) := by
  simp [run, h1, h2]

/-- C10 witness: the default-to-1 theorem at a concrete signal-terminated
outcome. -/
theorem run_signal_termination_defaults_code_one_witness :
    run false ⟨"", asciiBytes "killed", ⟨false, none⟩⟩ =
      .error (.exitCode 1 "killed") := by
  have h := run_signal_termination_defaults_code_one
    ⟨"", asciiBytes "killed", ⟨false, none⟩⟩ rfl rfl
  exact h.trans rfl
